import Mathlib

/-!
Verification of the Ping Pong MCP server (`src/main.py`).

The program is a small FastAPI application over SQLModel/SQLite with two
tables, `Player` and `Match`, and three data endpoints:

* `POST /api/match/end` (`end_match`, lines 55-104): reads optional fields
  from a JSON dict with defaults, fetch-or-creates the two player rows and
  overwrites their usernames, inserts a `Match` row, then resolves winner and
  loser rows and increments their counters.
* `GET /api/leaderboard` (`leaderboard`, lines 107-116): all players ordered
  by `total_wins` descending, rendered as JSON objects.
* `GET /leaderboard` (`leaderboard_page`, lines 119-187): the same query
  rendered as an HTML table with a win-rate column.

We embed the database as in-memory lists of rows.  `Session.get(Player, pid)`
becomes a `find?` on the player list; SQLAlchemy's `Session.get` with a fully
NULL primary key (the `winner` variable when `winner_id` is absent from the
payload) loads no object and returns `None`, which we model as `none`.
Python integers are `Int` (rewards and points are client-supplied and may be
negative); the win/loss counters only ever grow by one from zero, so they are
`Nat`.  The float `win_rate` of the HTML page is modelled exactly over `ℚ`.
-/

namespace PingPong

/-- Player row (`class Player`, main.py lines 10-15): id, display name and
three counters, the counters defaulting to zero on construction. -/
structure Player where
  id : Int
  username : String
  total_wins : Nat
  total_losses : Nat
  total_sats_won : Int
  deriving Repr, DecidableEq

/-- Match row (`class Match`, main.py lines 18-27), restricted to the fields
the handlers read and write.  `winner_id` is nullable; the store-assigned id
and the two timestamps play no role in any handler's logic. -/
structure MatchRec where
  player1_id : Int
  player2_id : Int
  winner_id : Option Int
  total_points_p1 : Int
  total_points_p2 : Int
  sats_reward : Int
  deriving Repr, DecidableEq

/-- The fields `end_match` extracts from its dict payload (main.py lines
60-67), with the exact `dict.get` defaults used there: a missing
`winner_id` is `None`, player ids default to 1 and 2, points and reward to
0, and the names to "Player1" and "AI". -/
structure MatchSubmission where
  winner_id : Option Int := none
  player1_id : Int := 1
  player2_id : Int := 2
  points_p1 : Int := 0
  points_p2 : Int := 0
  sats_reward : Int := 0
  player1_name : String := "Player1"
  player2_name : String := "AI"
  deriving Repr, DecidableEq

/-- The persistent state: the two tables of the SQLite file. -/
structure Store where
  players : List Player
  matchRows : List MatchRec
  deriving Repr, DecidableEq

/-- The freshly created database (`create_db_and_tables` on first startup). -/
def emptyStore : Store := ⟨[], []⟩

/-- `session.get(Player, pid)` for an integer primary key: the row whose id
matches, if any. -/
def getPlayer (ps : List Player) (pid : Int) : Option Player :=
  ps.find? fun p => p.id == pid

/-- `session.get(Player, winner)` where `winner = match.get("winner_id")`
may be `None` (main.py line 91): a fully NULL primary key loads no object. -/
def sessionGet (ps : List Player) : Option Int → Option Player
  | none => none
  | some pid => getPlayer ps pid

/-- One iteration of the fetch-or-create loop (main.py lines 69-76): if no
row with this id exists, insert one with the supplied name and zeroed
counters; otherwise overwrite the existing row's username. -/
def upsertPlayer (ps : List Player) (pid : Int) (name : String) : List Player :=
  match getPlayer ps pid with
  | some _ => ps.map fun p => if p.id == pid then { p with username := name } else p
  | none => ps ++ [{ id := pid, username := name, total_wins := 0, total_losses := 0,
                     total_sats_won := 0 }]

/-- The player table after the fetch-or-create loop ran for both slots, in
order: slot 1 first, then slot 2 (main.py line 69). -/
def playersAfterUpsert (ps : List Player) (m : MatchSubmission) : List Player :=
  upsertPlayer (upsertPlayer ps m.player1_id m.player1_name) m.player2_id m.player2_name

/-- The loser-id expression of main.py line 92: `p1 if winner == p2 else p2`.
Any `winner` other than `some p2` — including `none` — selects `p2`. -/
def resolveLoserId (winner : Option Int) (p1 p2 : Int) : Int :=
  if winner = some p2 then p1 else p2

/-- The stats-update step (main.py lines 90-97): look up the winner row by
`winner_id` and the loser row by the resolved loser id, then add one win and
the reward to the winner row when found, and one loss to the loser row when
found.  Mutation of the looked-up ORM object is modelled as updating every
row carrying its id. -/
def updateStats (ps : List Player) (winner : Option Int) (p1 p2 : Int) (reward : Int) :
    List Player :=
  let winnerPlayer := sessionGet ps winner
  let loserId := resolveLoserId winner p1 p2
  let loserPlayer := getPlayer ps loserId
  let ps1 :=
    match winnerPlayer with
    | some w =>
        ps.map fun p =>
          if p.id == w.id then
            { p with total_wins := p.total_wins + 1, total_sats_won := p.total_sats_won + reward }
          else p
    | none => ps
  match loserPlayer with
  | some _ =>
      ps1.map fun p => if p.id == loserId then { p with total_losses := p.total_losses + 1 } else p
  | none => ps1

/-- The whole `end_match` handler body on the success path (main.py lines
58-101): fetch-or-create and rename both player rows, append the new match
row, then run the stats update on the post-upsert table. -/
def endMatch (db : Store) (m : MatchSubmission) : Store :=
  let ps1 := playersAfterUpsert db.players m
  let newMatch : MatchRec :=
    { player1_id := m.player1_id, player2_id := m.player2_id, winner_id := m.winner_id,
      total_points_p1 := m.points_p1, total_points_p2 := m.points_p2,
      sats_reward := m.sats_reward }
  { players := updateStats ps1 m.winner_id m.player1_id m.player2_id m.sats_reward,
    matchRows := db.matchRows ++ [newMatch] }

/-- A sequence of successful submissions against the fresh database. -/
def runSubmissions (subs : List MatchSubmission) : Store :=
  subs.foldl endMatch emptyStore

/-- Whether a row with this id exists. -/
def hasPlayer (ps : List Player) (pid : Int) : Bool :=
  (getPlayer ps pid).isSome

/-- The `ORDER BY total_wins DESC` comparison of main.py lines 112 and 124. -/
def winsDesc (a b : Player) : Prop :=
  b.total_wins ≤ a.total_wins

instance : DecidableRel winsDesc := fun a b => Nat.decLe b.total_wins a.total_wins

instance : IsTotal Player winsDesc := ⟨fun _ _ => Nat.le_total _ _⟩

instance : IsTrans Player winsDesc := ⟨fun _ _ _ hab hbc => Nat.le_trans hbc hab⟩

/-- The result set of `select(Player).order_by(Player.total_wins.desc())`
(main.py lines 112 and 124), modelled by a sort; SQL leaves the relative
order of tied rows unspecified, and the claims only use that the output is
some wins-descending rearrangement of the table. -/
def leaderboardSorted (ps : List Player) : List Player :=
  List.insertionSort winsDesc ps

/-- One JSON object of the `/api/leaderboard` response (main.py line 113). -/
structure LBEntry where
  username : String
  wins : Nat
  losses : Nat
  sats : Int
  deriving Repr, DecidableEq

/-- The projection of main.py line 113. -/
def playerEntry (p : Player) : LBEntry :=
  ⟨p.username, p.total_wins, p.total_losses, p.total_sats_won⟩

/-- The `/api/leaderboard` handler's successful response body (main.py lines
112-113). -/
def leaderboard (ps : List Player) : List LBEntry :=
  (leaderboardSorted ps).map playerEntry

/-- The win-rate computation of main.py lines 161-162:
`wins / total_games * 100` when `total_games > 0`, else `0`. -/
def winRate (p : Player) : ℚ :=
  let totalGames := p.total_wins + p.total_losses
  if 0 < totalGames then (p.total_wins : ℚ) / (totalGames : ℚ) * 100 else 0

/-- One rendered row of the HTML leaderboard table (main.py lines 164-173):
rank, name, the three counters and the win rate. -/
structure PageRow where
  rank : Nat
  username : String
  wins : Nat
  losses : Nat
  rate : ℚ
  sats : Int
  deriving Repr, DecidableEq

/-- The row built for one player at a given rank (main.py lines 160-173). -/
def pageRow (rank : Nat) (p : Player) : PageRow :=
  ⟨rank, p.username, p.total_wins, p.total_losses, winRate p, p.total_sats_won⟩

/-- The `enumerate(players, 1)` loop of main.py line 160. -/
def pageRowsFrom : Nat → List Player → List PageRow
  | _, [] => []
  | i, p :: rest => pageRow i p :: pageRowsFrom (i + 1) rest

/-- The rows of the rendered `/leaderboard` page (main.py lines 124 and
160-173). -/
def leaderboardPageRows (ps : List Player) : List PageRow :=
  pageRowsFrom 1 (leaderboardSorted ps)

/-- The body of an HTTP response: either the JSON object
`{"error": ..., "details": ...}` or an HTML document. -/
inductive RespBody where
  | jsonErr (err details : String)
  | html (content : String)
  deriving Repr, DecidableEq

/-- An HTTP response: status code and body.  FastAPI serves a handler's
returned dict with status 200. -/
structure Response where
  status : Nat
  body : RespBody
  deriving Repr, DecidableEq

/-- The three data handlers of the application. -/
inductive Handler where
  | endMatchH
  | leaderboardH
  | leaderboardPageH
  deriving Repr, DecidableEq

/-- What each handler's `except` branch responds for a caught exception
rendered as the string `e`: `end_match` (main.py lines 102-104) and
`leaderboard` (lines 114-116) return plain dicts, served with status 200;
`leaderboard_page` (lines 186-187) returns an `HTMLResponse` with
`status_code=500`. -/
def errorResponse : Handler → String → Response
  | .endMatchH, e => ⟨200, .jsonErr ("Failed to save match") e⟩
  | .leaderboardH, e => ⟨200, .jsonErr ("Failed to fetch leaderboard") e⟩
  | .leaderboardPageH, e =>
      ⟨500, .html ("<h1>Error loading leaderboard</h1><p>" ++ e ++ "</p>")⟩

/-- Whether a response body is a JSON error description. -/
def RespBody.isJsonErr : RespBody → Bool
  | .jsonErr _ _ => true
  | .html _ => false

/-! ### Basic lookup lemmas -/

/-- A successful lookup returns a row carrying the requested id. -/
theorem getPlayer_id {ps : List Player} {pid : Int} {q : Player}
    (hq : getPlayer ps pid = some q) : q.id = pid := by
  unfold getPlayer at hq
  have h := List.find?_some hq
  exact eq_of_beq h

/-- Lookups commute with row transformations that preserve ids. -/
theorem getPlayer_map_of_id {g : Player → Player} (hg : ∀ p, (g p).id = p.id)
    (ps : List Player) (pid : Int) :
    getPlayer (ps.map g) pid = (getPlayer ps pid).map g := by
  induction ps with
  | nil => rfl
  | cons a as ih =>
    unfold getPlayer at ih ⊢
    rw [List.map_cons, List.find?_cons, List.find?_cons, hg a]
    cases ha : (a.id == pid) with
    | true => rfl
    | false => exact ih

/-- A lookup that succeeds on the left part of an appended list succeeds on
the whole list with the same row. -/
theorem getPlayer_append_left {ps : List Player} {pid : Int} {q : Player}
    (qs : List Player) (hq : getPlayer ps pid = some q) :
    getPlayer (ps ++ qs) pid = some q := by
  unfold getPlayer at hq ⊢
  rw [List.find?_append, hq]
  rfl

/-- A lookup that fails on the left part of an appended list is decided by
the right part. -/
theorem getPlayer_append_right {ps : List Player} {pid : Int}
    (qs : List Player) (h : getPlayer ps pid = none) :
    getPlayer (ps ++ qs) pid = getPlayer qs pid := by
  unfold getPlayer at h ⊢
  rw [List.find?_append, h]
  rfl

/-! ### Lookup through the fetch-or-create step -/

/-- Upserting an id whose row exists overwrites that row's username and
nothing else. -/
theorem getPlayer_upsert_found {ps : List Player} {pid : Int} {q : Player}
    (name : String) (hq : getPlayer ps pid = some q) :
    getPlayer (upsertPlayer ps pid name) pid = some { q with username := name } := by
  unfold upsertPlayer
  rw [hq]
  rw [getPlayer_map_of_id (fun p => by split <;> rfl), hq]
  have hid : q.id = pid := getPlayer_id hq
  simp [hid]

/-- Upserting an id with no row appends a fresh row with zeroed counters. -/
theorem getPlayer_upsert_new {ps : List Player} {pid : Int}
    (name : String) (h : getPlayer ps pid = none) :
    getPlayer (upsertPlayer ps pid name) pid =
      some { id := pid, username := name, total_wins := 0, total_losses := 0,
             total_sats_won := 0 } := by
  unfold upsertPlayer
  rw [h, getPlayer_append_right _ h]
  unfold getPlayer
  rw [List.find?_cons_of_pos _ (by simp)]

/-- Upserting one id leaves lookups of every other id unchanged. -/
theorem getPlayer_upsert_other {ps : List Player} {pid qid : Int}
    (name : String) (hne : qid ≠ pid) :
    getPlayer (upsertPlayer ps pid name) qid = getPlayer ps qid := by
  unfold upsertPlayer
  cases hfind : getPlayer ps pid with
  | some w =>
      rw [getPlayer_map_of_id (fun p => by split <;> rfl)]
      cases hq : getPlayer ps qid with
      | some r =>
          have hrid : r.id = qid := getPlayer_id hq
          simp [Option.map_some, hrid, beq_iff_eq, hne]
      | none => rfl
  | none =>
      cases hq : getPlayer ps qid with
      | some r => exact getPlayer_append_left _ hq
      | none =>
          rw [getPlayer_append_right _ hq]
          unfold getPlayer
          rw [List.find?_cons_of_neg _ (by simp; exact fun h => absurd h.symm hne)]
          rfl

/-! ### Lookup through the stats-update step -/

/-- Per-row effect of the winner increment (main.py lines 93-95). -/
theorem getPlayer_bumpWins {ps : List Player} {pid : Int} {q : Player}
    (wid : Int) (reward : Int) (hq : getPlayer ps pid = some q) :
    getPlayer (ps.map fun p =>
        if p.id == wid then
          { p with total_wins := p.total_wins + 1, total_sats_won := p.total_sats_won + reward }
        else p) pid =
      some (if pid = wid then
        { q with total_wins := q.total_wins + 1, total_sats_won := q.total_sats_won + reward }
      else q) := by
  rw [getPlayer_map_of_id (fun p => by split <;> rfl), hq]
  have hqid : q.id = pid := getPlayer_id hq
  by_cases h : pid = wid
  · simp [hqid, h]
  · simp [hqid, h]

/-- Per-row effect of the loser increment (main.py lines 96-97). -/
theorem getPlayer_bumpLosses {ps : List Player} {pid : Int} {q : Player}
    (lid : Int) (hq : getPlayer ps pid = some q) :
    getPlayer (ps.map fun p =>
        if p.id == lid then { p with total_losses := p.total_losses + 1 } else p) pid =
      some (if pid = lid then { q with total_losses := q.total_losses + 1 } else q) := by
  rw [getPlayer_map_of_id (fun p => by split <;> rfl), hq]
  have hqid : q.id = pid := getPlayer_id hq
  by_cases h : pid = lid
  · simp [hqid, h]
  · simp [hqid, h]

/-- The per-row effect of the whole stats-update step (main.py lines 90-97):
a row present before the step keeps its id and username, its wins and sats
grow exactly when its id is the submitted winner id (the winner lookup then
necessarily succeeding), its losses grow exactly when its id is the resolved
loser id, and nothing else about it changes. -/
theorem getPlayer_updateStats (ps : List Player) (winner : Option Int) (p1 p2 : Int)
    (reward : Int) (pid : Int) (q : Player) (hq : getPlayer ps pid = some q) :
    getPlayer (updateStats ps winner p1 p2 reward) pid =
      some { q with
        total_wins := q.total_wins + (if winner = some pid then 1 else 0),
        total_sats_won := q.total_sats_won + (if winner = some pid then reward else 0),
        total_losses := q.total_losses +
          (if resolveLoserId winner p1 p2 = pid then 1 else 0) } := by
  have hqid : q.id = pid := getPlayer_id hq
  cases winner with
  | none =>
      cases hl : getPlayer ps (resolveLoserId none p1 p2) with
      | none =>
          have hlne : ¬resolveLoserId none p1 p2 = pid := by
            intro h
            rw [h, hq] at hl
            exact Option.noConfusion hl
          simp only [updateStats, sessionGet, hl]
          rw [hq]
          simp [hlne]
      | some l =>
          simp only [updateStats, sessionGet, hl]
          rw [getPlayer_bumpLosses _ hq]
          by_cases h2 : resolveLoserId none p1 p2 = pid <;>
            simp [h2, eq_comm (a := pid)]
  | some wid =>
      cases hw : getPlayer ps wid with
      | none =>
          have hwne : ¬wid = pid := by
            intro h
            rw [h, hq] at hw
            exact Option.noConfusion hw
          cases hl : getPlayer ps (resolveLoserId (some wid) p1 p2) with
          | none =>
              have hlne : ¬resolveLoserId (some wid) p1 p2 = pid := by
                intro h
                rw [h, hq] at hl
                exact Option.noConfusion hl
              simp only [updateStats, sessionGet, hw, hl]
              rw [hq]
              simp [hlne, hwne]
          | some l =>
              simp only [updateStats, sessionGet, hw, hl]
              rw [getPlayer_bumpLosses _ hq]
              by_cases h2 : resolveLoserId (some wid) p1 p2 = pid <;>
                simp [h2, hwne, eq_comm (a := pid)]
      | some w =>
          have hwid : w.id = wid := getPlayer_id hw
          have hq1 := getPlayer_bumpWins w.id reward hq
          cases hl : getPlayer ps (resolveLoserId (some wid) p1 p2) with
          | none =>
              have hlne : ¬resolveLoserId (some wid) p1 p2 = pid := by
                intro h
                rw [h, hq] at hl
                exact Option.noConfusion hl
              simp only [updateStats, sessionGet, hw, hl]
              rw [hq1, hwid]
              by_cases h1 : pid = wid
              · subst h1
                simp [hlne, Ne.symm hlne]
              · simp [h1, Ne.symm h1, hlne, Ne.symm hlne]
          | some l =>
              simp only [updateStats, sessionGet, hw, hl]
              rw [getPlayer_bumpLosses _ hq1, hwid]
              by_cases h1 : pid = wid
              · subst h1
                by_cases h2 : resolveLoserId (some pid) p1 p2 = pid
                · simp [h2]
                · simp [h2, Ne.symm h2]
              · by_cases h2 : resolveLoserId (some wid) p1 p2 = pid
                · simp [h1, Ne.symm h1, h2]
                · simp [h1, Ne.symm h1, h2, Ne.symm h2]

/-- The per-row effect of a whole submission on a row of the post-upsert
table — the table on which lines 91-92 perform their winner and loser
lookups. -/
theorem getPlayer_endMatch (db : Store) (m : MatchSubmission) (pid : Int) (q : Player)
    (hq : getPlayer (playersAfterUpsert db.players m) pid = some q) :
    getPlayer (endMatch db m).players pid =
      some { q with
        total_wins := q.total_wins + (if m.winner_id = some pid then 1 else 0),
        total_sats_won := q.total_sats_won +
          (if m.winner_id = some pid then m.sats_reward else 0),
        total_losses := q.total_losses +
          (if resolveLoserId m.winner_id m.player1_id m.player2_id = pid then 1 else 0) } := by
  simp only [endMatch]
  exact getPlayer_updateStats _ _ _ _ _ _ _ hq

/-! ### Row presence -/

/-- After upserting an id, a row with that id exists. -/
theorem hasPlayer_upsert_self (ps : List Player) (pid : Int) (name : String) :
    hasPlayer (upsertPlayer ps pid name) pid = true := by
  unfold hasPlayer
  cases h : getPlayer ps pid with
  | some q => rw [getPlayer_upsert_found name h]; rfl
  | none => rw [getPlayer_upsert_new name h]; rfl

/-- Upserting never removes a row. -/
theorem hasPlayer_upsert (ps : List Player) (pid qid : Int) (name : String)
    (h : hasPlayer ps qid = true) : hasPlayer (upsertPlayer ps pid name) qid = true := by
  by_cases he : qid = pid
  · subst he
    exact hasPlayer_upsert_self ps qid name
  · unfold hasPlayer at h ⊢
    rw [getPlayer_upsert_other name he]
    exact h

/-- The stats-update step never removes a row. -/
theorem hasPlayer_updateStats (ps : List Player) (winner : Option Int) (p1 p2 : Int)
    (reward : Int) (pid : Int) (h : hasPlayer ps pid = true) :
    hasPlayer (updateStats ps winner p1 p2 reward) pid = true := by
  unfold hasPlayer at h
  cases hq : getPlayer ps pid with
  | none => rw [hq] at h; exact Bool.noConfusion h
  | some q =>
      unfold hasPlayer
      rw [getPlayer_updateStats ps winner p1 p2 reward pid q hq]
      rfl

/-- A row present before a submission is present after it. -/
theorem hasPlayer_endMatch (db : Store) (m : MatchSubmission) (pid : Int)
    (h : hasPlayer db.players pid = true) :
    hasPlayer (endMatch db m).players pid = true := by
  simp only [endMatch]
  exact hasPlayer_updateStats _ _ _ _ _ _
    (by
      simp only [playersAfterUpsert]
      exact hasPlayer_upsert _ _ _ _ (hasPlayer_upsert _ _ _ _ h))

/-- Every match row's two player slots point at existing player rows. -/
def matchPlayersPresent (s : Store) : Prop :=
  ∀ mr ∈ s.matchRows,
    hasPlayer s.players mr.player1_id = true ∧ hasPlayer s.players mr.player2_id = true

/-- One submission preserves (and establishes, for its own new match row)
the presence of the two player slots of every match row. -/
theorem endMatch_matchPlayersPresent (s : Store) (m : MatchSubmission)
    (h : matchPlayersPresent s) : matchPlayersPresent (endMatch s m) := by
  intro mr hmr
  have presPost : ∀ pid, hasPlayer (playersAfterUpsert s.players m) pid = true →
      hasPlayer (endMatch s m).players pid = true := by
    intro pid hp
    simp only [endMatch]
    exact hasPlayer_updateStats _ _ _ _ _ _ hp
  have hmem : mr ∈ s.matchRows ∨ mr =
      { player1_id := m.player1_id, player2_id := m.player2_id, winner_id := m.winner_id,
        total_points_p1 := m.points_p1, total_points_p2 := m.points_p2,
        sats_reward := m.sats_reward } := by
    simpa [endMatch] using hmr
  rcases hmem with hold | hnew
  · obtain ⟨h1, h2⟩ := h mr hold
    exact ⟨hasPlayer_endMatch s m _ h1, hasPlayer_endMatch s m _ h2⟩
  · subst hnew
    refine ⟨presPost _ ?_, presPost _ ?_⟩
    · simp only [playersAfterUpsert]
      exact hasPlayer_upsert _ _ _ _ (hasPlayer_upsert_self _ _ _)
    · simp only [playersAfterUpsert]
      exact hasPlayer_upsert_self _ _ _

/-- The slot-presence invariant holds in every state reachable from any
state satisfying it. -/
theorem matchPlayersPresent_foldl (subs : List MatchSubmission) (s : Store)
    (h : matchPlayersPresent s) : matchPlayersPresent (subs.foldl endMatch s) := by
  induction subs generalizing s with
  | nil => exact h
  | cons m rest ih => exact ih _ (endMatch_matchPlayersPresent s m h)

/-! ### Row counting -/

/-- Id-preserving row transformations do not change how many rows carry a
given id. -/
theorem countP_map_of_id {g : Player → Player} (hg : ∀ p, (g p).id = p.id)
    (ps : List Player) (pid : Int) :
    (ps.map g).countP (fun p => p.id == pid) = ps.countP (fun p => p.id == pid) := by
  rw [List.countP_map]
  congr 1
  funext p
  simp [Function.comp, hg p]

/-- The stats-update step does not change how many rows carry a given id. -/
theorem countP_updateStats (ps : List Player) (winner : Option Int) (p1 p2 : Int)
    (reward : Int) (pid : Int) :
    (updateStats ps winner p1 p2 reward).countP (fun p => p.id == pid) =
      ps.countP (fun p => p.id == pid) := by
  simp only [updateStats]
  cases hw : sessionGet ps winner with
  | none =>
      cases hl : getPlayer ps (resolveLoserId winner p1 p2) with
      | none => rfl
      | some l => exact countP_map_of_id (fun p => by split <;> rfl) ps pid
  | some w =>
      cases hl : getPlayer ps (resolveLoserId winner p1 p2) with
      | none => exact countP_map_of_id (fun p => by split <;> rfl) ps pid
      | some l =>
          exact (countP_map_of_id (fun p => by split <;> rfl) _ pid).trans
            (countP_map_of_id (fun p => by split <;> rfl) ps pid)

/-- Upserting an id into a table where at most one row carries it leaves
exactly one row carrying it. -/
theorem countP_upsert_self (ps : List Player) (pid : Int) (name : String)
    (hpk : ps.countP (fun p => p.id == pid) ≤ 1) :
    (upsertPlayer ps pid name).countP (fun p => p.id == pid) = 1 := by
  unfold upsertPlayer
  cases h : getPlayer ps pid with
  | some q =>
      rw [countP_map_of_id (fun p => by split <;> rfl)]
      unfold getPlayer at h
      have hpq := List.find?_some h
      have hpos : 0 < ps.countP (fun p => p.id == pid) :=
        List.countP_pos_iff.mpr ⟨q, List.mem_of_find?_eq_some h, hpq⟩
      omega
  | none =>
      rw [List.countP_append]
      unfold getPlayer at h
      have h0 : ps.countP (fun p => p.id == pid) = 0 :=
        List.countP_eq_zero.mpr (List.find?_eq_none.mp h)
      simp [h0]

/-! ### HTML page rows -/

/-- Every rendered page row comes from some player of the listed table. -/
theorem mem_pageRowsFrom {row : PageRow} :
    ∀ (i : Nat) (l : List Player), row ∈ pageRowsFrom i l →
      ∃ j p, p ∈ l ∧ row = pageRow j p := by
  intro i l
  induction l generalizing i with
  | nil => intro h; exact absurd h (List.not_mem_nil row)
  | cons a as ih =>
      intro h
      simp only [pageRowsFrom, List.mem_cons] at h
      rcases h with h | h
      · exact ⟨i, a, List.mem_cons_self a as, h⟩
      · obtain ⟨j, p, hp, hrow⟩ := ih (i + 1) h
        exact ⟨j, p, List.mem_cons_of_mem a hp, hrow⟩

/-! ## Claims -/

/-- Claim C1: for every match submission processed without an exception, the
row looked up by the submitted winner id — when that lookup succeeds, i.e.
when the table the lookups run on has a row with that id — gains exactly one
win and exactly the submitted reward in sats, the resolved non-winner row
(when its lookup succeeds) gains exactly one loss, and no other counter of
any row, and no username or id, changes.  Stated as a complete per-row
characterisation of the submission's effect on the post-upsert table. -/
theorem c1_stats_deltas (db : Store) (m : MatchSubmission) (pid : Int) (q : Player)
    (hq : getPlayer (playersAfterUpsert db.players m) pid = some q) :
    getPlayer (endMatch db m).players pid =
      some { q with
        total_wins := q.total_wins + (if m.winner_id = some pid then 1 else 0),
        total_sats_won := q.total_sats_won +
          (if m.winner_id = some pid then m.sats_reward else 0),
        total_losses := q.total_losses +
          (if resolveLoserId m.winner_id m.player1_id m.player2_id = pid then 1 else 0) } :=
  getPlayer_endMatch db m pid q hq

/-- The spec's own worked example: Alice (id 1) beats Bob (id 2) 11:7 for
100 sats. -/
def exampleSub : MatchSubmission :=
  { winner_id := some 1, player1_id := 1, player2_id := 2, points_p1 := 11, points_p2 := 7,
    sats_reward := 100, player1_name := "Alice", player2_name := "Bob" }

/-- Witness for C1 at the spec's example submission on a fresh database. -/
theorem c1_stats_deltas_witness :
    getPlayer (endMatch emptyStore exampleSub).players 1 =
      some { id := 1, username := "Alice", total_wins := 1, total_losses := 0,
             total_sats_won := 100 } := by
  have h := c1_stats_deltas emptyStore exampleSub 1
      { id := 1, username := "Alice", total_wins := 0, total_losses := 0, total_sats_won := 0 }
      (by decide)
  rw [h]
  decide

/-- Claim C2 counterexample: with `winner_id` absent and the default ids
`p1 = 1, p2 = 2`, line 92 resolves the loser as player 2 — not player 1 as
the claim states. -/
theorem c2_counterexample :
    resolveLoserId none 1 2 = 2 ∧ (2 : Int) ≠ 1 := by decide

/-- Claim C2 amended: the branch of line 92 resolves the loser as player 1
exactly when the winner id equals the player2 id, and as player 2 for every
other winner id — absent, garbage, or even the player1 id itself. -/
theorem c2_amended (winner : Option Int) (p1 p2 : Int) :
    (winner = some p2 → resolveLoserId winner p1 p2 = p1) ∧
    (winner ≠ some p2 → resolveLoserId winner p1 p2 = p2) := by
  constructor
  · intro h
    simp [resolveLoserId, h]
  · intro h
    simp [resolveLoserId, h]

/-- Witness for the amended C2 at concrete inputs. -/
theorem c2_amended_witness :
    resolveLoserId none 5 6 = 6 ∧ resolveLoserId (some 6) 5 6 = 5 :=
  ⟨(c2_amended none 5 6).2 (by decide), (c2_amended (some 6) 5 6).1 rfl⟩

/-- The empty payload: every field takes its `dict.get` default. -/
def subNoWinner : MatchSubmission := {}

/-- Claim C3 counterexample: submitting the empty payload (no `winner_id`),
player 2's freshly created row ends with `total_losses = 1`: the loser
lookup did not fail — the loser resolved to player 2 and its loss counter
was incremented. -/
theorem c3_counterexample :
    getPlayer (endMatch emptyStore subNoWinner).players 2 =
      some { id := 2, username := "AI", total_wins := 0, total_losses := 1,
             total_sats_won := 0 } := by
  decide

/-- Claim C3 amended: with `winner_id` absent the winner lookup does fail,
so no row's wins or sats change; but the loser lookup resolves to the
player2 id, whose row gains exactly one loss. -/
theorem c3_amended (db : Store) (m : MatchSubmission) (hw : m.winner_id = none)
    (pid : Int) (q : Player)
    (hq : getPlayer (playersAfterUpsert db.players m) pid = some q) :
    getPlayer (endMatch db m).players pid =
      some { q with total_losses := q.total_losses +
        (if m.player2_id = pid then 1 else 0) } := by
  have h := getPlayer_endMatch db m pid q hq
  rw [hw] at h
  simpa [resolveLoserId] using h

/-- Witness for the amended C3: an empty-payload submission against a store
already holding a row for id 7 referenced as player 2. -/
theorem c3_amended_witness :
    getPlayer (endMatch ⟨[⟨7, "X", 2, 3, 4⟩], []⟩
        { player1_id := 3, player2_id := 7 }).players 7 =
      some ⟨7, "AI", 2, 4, 4⟩ := by
  have h := c3_amended ⟨[⟨7, "X", 2, 3, 4⟩], []⟩ { player1_id := 3, player2_id := 7 } rfl 7
      ⟨7, "AI", 2, 3, 4⟩ (by decide)
  rw [h]
  decide

/-- Claim C4 counterexample: the `leaderboard_page` handler's error path
responds with HTTP status 500 (main.py line 187), not 200. -/
theorem c4_counterexample :
    (errorResponse Handler.leaderboardPageH ("boom")).status ≠ 200 := by decide

/-- Claim C4 amended: `end_match` and `leaderboard` catch failures and
respond with a 200-status JSON error body, while `leaderboard_page`
responds with a 500-status HTML error page, not JSON. -/
theorem c4_amended (e : String) :
    (errorResponse Handler.endMatchH e).status = 200 ∧
    (errorResponse Handler.endMatchH e).body.isJsonErr = true ∧
    (errorResponse Handler.leaderboardH e).status = 200 ∧
    (errorResponse Handler.leaderboardH e).body.isJsonErr = true ∧
    (errorResponse Handler.leaderboardPageH e).status = 500 ∧
    (errorResponse Handler.leaderboardPageH e).body.isJsonErr = false :=
  ⟨rfl, rfl, rfl, rfl, rfl, rfl⟩

/-- A submission whose winner id matches neither player slot. -/
def subGarbageWinner : MatchSubmission := { winner_id := some 99 }

/-- Claim C5 counterexample: one successful submission with `winner_id = 99`
(matching neither slot) reaches a state whose match row references player
id 99 while no player row with id 99 exists. -/
theorem c5_counterexample :
    (runSubmissions [subGarbageWinner]).matchRows =
      [{ player1_id := 1, player2_id := 2, winner_id := some 99, total_points_p1 := 0,
         total_points_p2 := 0, sats_reward := 0 }] ∧
    hasPlayer (runSubmissions [subGarbageWinner]).players 99 = false := by
  decide

/-- Claim C5 amended: in every state reachable by successful submissions
from the empty store, the `player1_id` and `player2_id` of every match row
have corresponding player rows, created lazily on first reference; a
`winner_id` matching neither slot gets no row. -/
theorem c5_amended (subs : List MatchSubmission) (mr : MatchRec)
    (hmr : mr ∈ (runSubmissions subs).matchRows) :
    hasPlayer (runSubmissions subs).players mr.player1_id = true ∧
    hasPlayer (runSubmissions subs).players mr.player2_id = true := by
  have hbase : matchPlayersPresent emptyStore := by
    intro mr hmr
    exact absurd hmr (List.not_mem_nil mr)
  exact matchPlayersPresent_foldl subs emptyStore hbase mr hmr

/-- Witness for the amended C5 after one empty-payload submission. -/
theorem c5_amended_witness :
    hasPlayer (runSubmissions [subNoWinner]).players 1 = true ∧
    hasPlayer (runSubmissions [subNoWinner]).players 2 = true := by
  have h := c5_amended [subNoWinner]
      { player1_id := 1, player2_id := 2, winner_id := none, total_points_p1 := 0,
        total_points_p2 := 0, sats_reward := 0 } (by decide)
  exact h

/-- A submission whose two slots carry the same fresh id. -/
def subSameIds : MatchSubmission :=
  { player1_id := 5, player2_id := 5, player1_name := "A", player2_name := "B" }

/-- Claim C6 counterexample: when both slots carry the same fresh id 5, the
fetch-or-create step produces one row, not two — the second loop iteration
finds the row the first created and only renames it. -/
theorem c6_counterexample :
    getPlayer emptyStore.players 5 = none ∧
    (playersAfterUpsert emptyStore.players subSameIds).length = 1 := by
  decide

/-- A freshly created row: the supplied id and name, zeroed counters. -/
def freshPlayer (pid : Int) (name : String) : Player :=
  { id := pid, username := name, total_wins := 0, total_losses := 0, total_sats_won := 0 }

/-- Claim C6 amended: a submission whose two slot ids are distinct and have
no existing rows appends exactly two rows carrying the supplied usernames
and all-zero counters, prior to the stats-increment step. -/
theorem c6_amended (ps : List Player) (m : MatchSubmission)
    (h1 : getPlayer ps m.player1_id = none) (h2 : getPlayer ps m.player2_id = none)
    (hne : m.player1_id ≠ m.player2_id) :
    playersAfterUpsert ps m =
      ps ++ [freshPlayer m.player1_id m.player1_name,
             freshPlayer m.player2_id m.player2_name] := by
  have e1 : upsertPlayer ps m.player1_id m.player1_name =
      ps ++ [freshPlayer m.player1_id m.player1_name] := by
    unfold upsertPlayer
    rw [h1]
    rfl
  have h2' : getPlayer (ps ++ [freshPlayer m.player1_id m.player1_name]) m.player2_id =
      none := by
    rw [getPlayer_append_right _ h2]
    unfold getPlayer
    rw [List.find?_cons]
    have hb : (m.player1_id == m.player2_id) = false := beq_eq_false_iff_ne.mpr hne
    simp [freshPlayer, hb]
  have e2 : upsertPlayer (ps ++ [freshPlayer m.player1_id m.player1_name])
      m.player2_id m.player2_name =
      (ps ++ [freshPlayer m.player1_id m.player1_name]) ++
        [freshPlayer m.player2_id m.player2_name] := by
    unfold upsertPlayer
    rw [h2']
    rfl
  rw [playersAfterUpsert, e1, e2, List.append_assoc]
  rfl

/-- Witness for the amended C6 at the spec's example submission. -/
theorem c6_amended_witness :
    playersAfterUpsert emptyStore.players exampleSub =
      [⟨1, "Alice", 0, 0, 0⟩, ⟨2, "Bob", 0, 0, 0⟩] := by
  have h := c6_amended emptyStore.players exampleSub rfl rfl (by decide)
  simpa using h

/-- Claim C7: a submission referencing an id that already has a row
overwrites that row's username with the name supplied for its slot (the
slot-2 name winning when both slots carry the id), retains no previous
username, and leaves the row's id and all three counters unchanged by the
username-update step. -/
theorem c7_username_overwrite (ps : List Player) (m : MatchSubmission) (pid : Int) (q : Player)
    (hq : getPlayer ps pid = some q)
    (href : pid = m.player1_id ∨ pid = m.player2_id) :
    getPlayer (playersAfterUpsert ps m) pid =
      some { q with username :=
        if pid = m.player2_id then m.player2_name else m.player1_name } := by
  simp only [playersAfterUpsert]
  by_cases h2 : pid = m.player2_id
  · rw [if_pos h2]
    by_cases h1 : pid = m.player1_id
    · have e1 : getPlayer (upsertPlayer ps m.player1_id m.player1_name) pid =
          some { q with username := m.player1_name } := by
        rw [← h1]
        exact getPlayer_upsert_found m.player1_name hq
      have e2 : getPlayer (upsertPlayer (upsertPlayer ps m.player1_id m.player1_name)
          m.player2_id m.player2_name) pid =
          some { { q with username := m.player1_name } with username := m.player2_name } := by
        rw [← h2]
        exact getPlayer_upsert_found m.player2_name e1
      rw [e2]
    · have e1 : getPlayer (upsertPlayer ps m.player1_id m.player1_name) pid = some q := by
        rw [getPlayer_upsert_other _ h1]
        exact hq
      rw [← h2]
      exact getPlayer_upsert_found m.player2_name e1
  · rw [if_neg h2]
    have h1 : pid = m.player1_id := href.resolve_right h2
    have e1 : getPlayer (upsertPlayer ps m.player1_id m.player1_name) pid =
        some { q with username := m.player1_name } := by
      rw [← h1]
      exact getPlayer_upsert_found m.player1_name hq
    rw [getPlayer_upsert_other _ h2]
    exact e1

/-- Witness for C7: resubmitting with a new name for id 1 overwrites the
old name and keeps the counters. -/
theorem c7_witness :
    getPlayer (playersAfterUpsert [⟨1, "Old", 3, 2, 7⟩] exampleSub) 1 =
      some ⟨1, "Alice", 3, 2, 7⟩ := by
  have h := c7_username_overwrite [⟨1, "Old", 3, 2, 7⟩] exampleSub 1 ⟨1, "Old", 3, 2, 7⟩
      (by decide) (Or.inl rfl)
  rw [h]
  decide

/-- Claim C8: the leaderboard JSON is one entry per player row — a
permutation of the per-row projections to username/wins/losses/sats — and
its wins are in descending order. -/
theorem c8_leaderboard_sorted (ps : List Player) :
    (leaderboard ps).Perm (ps.map playerEntry) ∧
    (leaderboard ps).Pairwise (fun a b => b.wins ≤ a.wins) := by
  constructor
  · exact (List.perm_insertionSort winsDesc ps).map playerEntry
  · exact List.Pairwise.map playerEntry (fun a b hab => hab)
      (List.sorted_insertionSort winsDesc ps)

/-- Claim C9: every rendered page row's win rate equals
wins/(wins+losses)*100 when the row has played any games, and 0 when it has
none; the guard means the division's denominator is never zero. -/
theorem c9_win_rate (ps : List Player) (row : PageRow)
    (hrow : row ∈ leaderboardPageRows ps) :
    (row.wins + row.losses = 0 → row.rate = 0) ∧
    (0 < row.wins + row.losses →
      ((row.wins : ℚ) + (row.losses : ℚ) ≠ 0 ∧
        row.rate = (row.wins : ℚ) / ((row.wins : ℚ) + (row.losses : ℚ)) * 100)) := by
  obtain ⟨j, p, hp, rfl⟩ := mem_pageRowsFrom 1 (leaderboardSorted ps) hrow
  constructor
  · intro h0
    have hz : p.total_wins + p.total_losses = 0 := h0
    show winRate p = 0
    simp [winRate, hz]
  · intro hpos
    have hpos' : 0 < p.total_wins + p.total_losses := hpos
    have hne : ((p.total_wins + p.total_losses : Nat) : ℚ) ≠ 0 :=
      Nat.cast_ne_zero.mpr (Nat.pos_iff_ne_zero.mp hpos')
    constructor
    · push_cast at hne
      exact hne
    · show winRate p = _
      simp only [winRate]
      rw [if_pos hpos']
      push_cast
      rfl

/-- A player with one win and one loss, for the C9 witness. -/
def demoPlayer : Player := ⟨1, "A", 1, 1, 0⟩

/-- Witness for C9: the rendered rate of a 1-1 player is 50. -/
theorem c9_win_rate_witness :
    (pageRow 1 demoPlayer).rate =
      ((pageRow 1 demoPlayer).wins : ℚ) /
        (((pageRow 1 demoPlayer).wins : ℚ) + ((pageRow 1 demoPlayer).losses : ℚ)) * 100 := by
  have h := c9_win_rate [demoPlayer] (pageRow 1 demoPlayer)
      (by simp [leaderboardPageRows, leaderboardSorted, pageRowsFrom])
  exact (h.2 (by decide)).2

/-- Claim C10: a submission whose two slots and winner are all the same id
touches exactly one player row — given the table holds at most one row for
the id, as a primary-keyed table does: afterwards exactly one row carries
the id, and that row gained one win, one loss and the submitted reward
relative to its pre-submission counters (zero for a fresh id). -/
theorem c10_self_match (db : Store) (m : MatchSubmission) (i : Int)
    (h1 : m.player1_id = i) (h2 : m.player2_id = i) (hw : m.winner_id = some i)
    (hpk : db.players.countP (fun p => p.id == i) ≤ 1) :
    ((endMatch db m).players.countP fun p => p.id == i) = 1 ∧
    ∃ q, getPlayer (endMatch db m).players i = some q ∧
      q.total_wins = ((getPlayer db.players i).map Player.total_wins).getD 0 + 1 ∧
      q.total_losses = ((getPlayer db.players i).map Player.total_losses).getD 0 + 1 ∧
      q.total_sats_won =
        ((getPlayer db.players i).map Player.total_sats_won).getD 0 + m.sats_reward := by
  simp only [endMatch, playersAfterUpsert]
  rw [h1, h2, hw]
  have cnt1 : (upsertPlayer db.players i m.player1_name).countP (fun p => p.id == i) = 1 :=
    countP_upsert_self db.players i m.player1_name hpk
  have cnt2 : (upsertPlayer (upsertPlayer db.players i m.player1_name) i
      m.player2_name).countP (fun p => p.id == i) = 1 :=
    countP_upsert_self _ i m.player2_name (le_of_eq cnt1)
  constructor
  · rw [countP_updateStats]
    exact cnt2
  · cases hf : getPlayer db.players i with
    | none =>
        have e1 := @getPlayer_upsert_new db.players i m.player1_name hf
        have e2 := getPlayer_upsert_found m.player2_name e1
        have e3 := getPlayer_updateStats _ (some i) i i m.sats_reward i _ e2
        refine ⟨_, e3, ?_, ?_, ?_⟩ <;> simp [hf, resolveLoserId]
    | some q0 =>
        have e1 := getPlayer_upsert_found m.player1_name hf
        have e2 := getPlayer_upsert_found m.player2_name e1
        have e3 := getPlayer_updateStats _ (some i) i i m.sats_reward i _ e2
        refine ⟨_, e3, ?_, ?_, ?_⟩ <;> simp [hf, resolveLoserId]

/-- A self-match submission: both slots and the winner are id 7. -/
def subSelf : MatchSubmission :=
  { winner_id := some 7, player1_id := 7, player2_id := 7, sats_reward := 21,
    player1_name := "Solo", player2_name := "Duo" }

/-- Witness for C10 at a concrete self-match on a fresh database. -/
theorem c10_self_match_witness :
    ((endMatch emptyStore subSelf).players.countP fun p => p.id == 7) = 1 ∧
    ∃ q, getPlayer (endMatch emptyStore subSelf).players 7 = some q ∧
      q.total_wins = ((getPlayer emptyStore.players 7).map Player.total_wins).getD 0 + 1 ∧
      q.total_losses = ((getPlayer emptyStore.players 7).map Player.total_losses).getD 0 + 1 ∧
      q.total_sats_won =
        ((getPlayer emptyStore.players 7).map Player.total_sats_won).getD 0 +
          subSelf.sats_reward :=
  c10_self_match emptyStore subSelf 7 rfl rfl rfl (by decide)

end PingPong
